import Mathlib

/-!
Shallow embedding of `src/client/src/components/Output.tsx` (SheenEdge).

The component keeps eight `useState` hooks; we model them as one record
`OutputState`.  Each async handler (`fetchEmails`, `runCode`, `saveCode`,
`handleEmailSubmit`, `removeEmail`) is embedded as a function from the
prior state and the outcome of its single network call to the next state.
Outcomes distinguish a resolved response with success status, a resolved
response with non-success status, and a rejected/thrown call, matching the
`if (response.ok) ... else ...` / `catch` structure of the source.
Toast notifications and console logging have no effect on component state
and are not modelled.  For the handlers whose claims speak about whether a
network request was issued at all (`handleEmailSubmit`, `saveCode`) the
embedding also returns a `networkCall` flag.
-/

namespace SheenEdge

/-- The `useState` hooks of the `Output` component, in source order
(lines 33-40): `output`, `isLoading`, `isError`, `emails`, `isModalOpen`,
`newEmail`, `isRemoving`, `isDropdownOpen`. -/
structure OutputState where
  output : Option (List String)
  isLoading : Bool
  isError : Bool
  emails : List String
  isModalOpen : Bool
  newEmail : String
  isRemoving : Bool
  isDropdownOpen : Bool
deriving DecidableEq, Repr

/-- Initial values of the hooks: `useState<string[] | null>(null)`,
`useState(false)`, `useState(false)`, `useState<string[]>([])`,
`useState(false)`, `useState('')`, `useState(false)`, `useState(false)`. -/
def initialState : OutputState :=
  { output := none, isLoading := false, isError := false, emails := [],
    isModalOpen := false, newEmail := "", isRemoving := false,
    isDropdownOpen := false }

/-- JS truthiness of `editorRef.current?.getValue()`: `undefined`/absent and
the empty string are falsy, every other string is truthy. -/
def truthyOptStr : Option String → Bool
  | none => false
  | some s => s != ""

/-- Outcome of the `GET /api/codes/:id` call in `fetchEmails`:
`ok access` is a success response whose JSON may or may not carry the
`Access` field; `notOk` is a non-success status (the code then throws into
its own `catch`); `thrown` is a rejected `fetch`. -/
inductive LoadOutcome where
  | ok (access : Option (List String))
  | notOk
  | thrown
deriving DecidableEq, Repr

/-- `fetchEmails` (lines 46-71): on `response.ok` it runs
`setEmails(data.Access || [])`; a non-ok status throws and, like a network
error, lands in the `catch` which only logs and toasts. -/
def fetchEmails (s : OutputState) : LoadOutcome → OutputState
  | .ok access => { s with emails := access.getD [] }
  | .notOk => s
  | .thrown => s

/-- JS `String.prototype.split` with a one-character separator, on the
character list: the empty text splits into `[""]`, a separator character
starts a fresh (initially empty) field, any other character is prepended
to the first field of the split of the rest. -/
def jsSplitChars (sep : Char) : List Char → List String
  | [] => [""]
  | c :: cs =>
      let rest := jsSplitChars sep cs
      if c == sep then "" :: rest
      else
        match rest with
        | [] => [String.mk [c]]
        | r :: rs => String.mk (c :: r.data) :: rs

/-- JS `s.split(sep)` for a one-character separator, as used by
`result.output.split("\n")` on line 82. -/
def jsSplit (sep : Char) (s : String) : List String :=
  jsSplitChars sep s.data

/-- The newline character, the separator of `output.split("\n")`. -/
def newlineChar : Char := Char.ofNat 10

/-- Outcome of `executeCode(language, sourceCode)` in `runCode`:
either the promise resolves with `run.output` and `run.stderr`, or it
rejects. -/
inductive RunOutcome where
  | resolved (out stderr : String)
  | thrown
deriving DecidableEq, Repr

/-- The state of the component while the `runCode` request is in flight:
line 80 runs `setIsLoading(true)` before awaiting `executeCode`. -/
def runCodeBegin (s : OutputState) : OutputState := { s with isLoading := true }

/-- `runCode` (lines 76-95): returns immediately when
`editorRef.current?.getValue()` is falsy; otherwise sets loading, awaits
the call, on resolution runs `setOutput(result.output.split("\n"))` and
`setIsError` from the truthiness of `result.stderr`, on rejection only
toasts, and in the `finally` block runs `setIsLoading(false)`. -/
def runCode (s : OutputState) (sourceCode : Option String) (o : RunOutcome) :
    OutputState :=
  if truthyOptStr sourceCode then
    let s1 := runCodeBegin s
    let s2 :=
      match o with
      | .resolved out stderr =>
          { s1 with output := some (jsSplit newlineChar out), isError := stderr != "" }
      | .thrown => s1
    { s2 with isLoading := false }
  else s

/-- Outcome of the `PUT /api/codes/save/:id` call in `saveCode`:
success status, non-success status with an optional server `message`, or a
rejected `fetch`. -/
inductive SaveOutcome where
  | ok
  | notOk (message : Option String)
  | thrown
deriving DecidableEq, Repr

/-- Result of a handler together with whether it issued a network
request. -/
structure OpResult where
  state : OutputState
  networkCall : Bool
deriving DecidableEq, Repr

/-- The state of the component while the `saveCode` request is in flight:
line 102 runs `setIsLoading(true)` before awaiting `fetch`. -/
def saveCodeBegin (s : OutputState) : OutputState := { s with isLoading := true }

/-- `saveCode` (lines 97-139): returns immediately when the editor content
is falsy; otherwise sets loading, awaits the PUT, toasts on every branch
(success, non-success and thrown change no hook), and in the `finally`
block runs `setIsLoading(false)`. -/
def saveCode (s : OutputState) (content : Option String) (o : SaveOutcome) :
    OpResult :=
  if truthyOptStr content then
    let s1 := saveCodeBegin s
    let s2 :=
      match o with
      | .ok => s1
      | .notOk _ => s1
      | .thrown => s1
    { state := { s2 with isLoading := false }, networkCall := true }
  else { state := s, networkCall := false }

/-- Outcome of the `PUT /api/codes/give/:id` call in `handleEmailSubmit`. -/
inductive GrantOutcome where
  | ok
  | notOk (message : Option String)
  | thrown
deriving DecidableEq, Repr

/-- `handleEmailSubmit` (lines 141-182): guarded by `if (newEmail)` (JS
string truthiness, i.e. `newEmail` is not the empty string); on
`response.ok` runs `setEmails([...emails, newEmail])`, `setNewEmail('')`,
`setIsModalOpen(false)`; on a non-ok status or a thrown call it only
toasts. -/
def handleEmailSubmit (s : OutputState) (o : GrantOutcome) : OpResult :=
  if s.newEmail != "" then
    match o with
    | .ok =>
        { state :=
            { s with emails := s.emails ++ [s.newEmail], newEmail := "",
                     isModalOpen := false },
          networkCall := true }
    | .notOk _ => { state := s, networkCall := true }
    | .thrown => { state := s, networkCall := true }
  else { state := s, networkCall := false }

/-- Outcome of the `PUT /api/codes/take/:id` call in `removeEmail`. -/
inductive RevokeOutcome where
  | ok
  | notOk (message : Option String)
  | thrown
deriving DecidableEq, Repr

/-- `removeEmail` (lines 188-225): on `response.ok` runs
`setEmails(emails.filter(email => email !== emailToRemove))`; on a non-ok
status or a thrown call it only toasts. -/
def removeEmail (s : OutputState) (emailToRemove : String) :
    RevokeOutcome → OutputState
  | .ok => { s with emails := s.emails.filter (fun email => email != emailToRemove) }
  | .notOk _ => s
  | .thrown => s

/-- The local AccessList of the spec is the `emails` hook. -/
def accessList (s : OutputState) : List String := s.emails

/-- The local ExecutionResult of the spec: `outputLines` is the `output`
hook and `isError` the `isError` hook. -/
def executionResult (s : OutputState) : Option (List String) × Bool :=
  (s.output, s.isError)

/-- The loading indicator the Run Code button renders (line 234:
`isLoading={isLoading}`). -/
def runButtonIsLoading (s : OutputState) : Bool := s.isLoading

/-- The loading indicator the Save Code button renders (line 244:
`isLoading={isLoading}`). -/
def saveButtonIsLoading (s : OutputState) : Bool := s.isLoading

/-- A concrete state with the add-email modal open, a pending email typed,
and one collaborator already on the list. -/
def grantDemoState : OutputState :=
  { initialState with
      emails := ["b@y.com"]
      newEmail := "a@x.com"
      isModalOpen := true }

/-- A concrete state whose pending email is a single space: non-empty, so
truthy in JS, but blank. -/
def blankEmailState : OutputState :=
  { initialState with newEmail := " ", isModalOpen := true }

/-- C1: for every operation (loadAccessList, grantAccess, revokeAccess,
run, save) and every failing outcome (thrown call or non-success response
status), the local AccessList and the local ExecutionResult are left
unchanged; they are mutated only in the confirmed-success branch. -/
theorem claim1_failure_preserves_accessList_and_executionResult
    (s : OutputState) (src content : Option String) (email : String)
    (gmsg rmsg smsg : Option String) :
    (accessList (fetchEmails s .notOk) = accessList s ∧
     executionResult (fetchEmails s .notOk) = executionResult s) ∧
    (accessList (fetchEmails s .thrown) = accessList s ∧
     executionResult (fetchEmails s .thrown) = executionResult s) ∧
    (accessList (handleEmailSubmit s (.notOk gmsg)).state = accessList s ∧
     executionResult (handleEmailSubmit s (.notOk gmsg)).state = executionResult s) ∧
    (accessList (handleEmailSubmit s .thrown).state = accessList s ∧
     executionResult (handleEmailSubmit s .thrown).state = executionResult s) ∧
    (accessList (removeEmail s email (.notOk rmsg)) = accessList s ∧
     executionResult (removeEmail s email (.notOk rmsg)) = executionResult s) ∧
    (accessList (removeEmail s email .thrown) = accessList s ∧
     executionResult (removeEmail s email .thrown) = executionResult s) ∧
    (accessList (runCode s src .thrown) = accessList s ∧
     executionResult (runCode s src .thrown) = executionResult s) ∧
    (accessList (saveCode s content (.notOk smsg)).state = accessList s ∧
     executionResult (saveCode s content (.notOk smsg)).state = executionResult s) ∧
    (accessList (saveCode s content .thrown).state = accessList s ∧
     executionResult (saveCode s content .thrown).state = executionResult s) := by
  unfold accessList executionResult fetchEmails handleEmailSubmit removeEmail
    runCode saveCode runCodeBegin saveCodeBegin
  refine ⟨⟨rfl, rfl⟩, ⟨rfl, rfl⟩, ?_, ?_, ⟨rfl, rfl⟩, ⟨rfl, rfl⟩, ?_, ?_, ?_⟩ <;>
    split <;> exact ⟨rfl, rfl⟩

/-- C2: for every non-empty pending email and every prior AccessList, when
`grantAccess` completes with a success response, AccessList equals the
prior list with the email appended as its last element (no deduplication),
the pending-email buffer is the empty string, and the add-email modal is
closed. -/
theorem claim2_grant_success_appends_and_resets
    (s : OutputState) (h : s.newEmail ≠ "") :
    (handleEmailSubmit s .ok).state.emails = s.emails ++ [s.newEmail] ∧
    (handleEmailSubmit s .ok).state.newEmail = "" ∧
    (handleEmailSubmit s .ok).state.isModalOpen = false := by
  simp [handleEmailSubmit, bne_iff_ne, h]

/-- Witness for C2 at a concrete state: pending email `"a@x.com"`, prior
list `["b@y.com"]`. -/
theorem claim2_witness :
    grantDemoState.newEmail ≠ "" ∧
    ((handleEmailSubmit grantDemoState .ok).state.emails =
        grantDemoState.emails ++ [grantDemoState.newEmail] ∧
     (handleEmailSubmit grantDemoState .ok).state.newEmail = "" ∧
     (handleEmailSubmit grantDemoState .ok).state.isModalOpen = false) :=
  ⟨by decide, claim2_grant_success_appends_and_resets grantDemoState (by decide)⟩

/-- The spec side of the revoke-success claim, stated from its words
independently of the code: the prior list with the first (and any) entry
equal to the email by value equality removed, all other entries kept —
duplicates of non-matching entries included — in their original order. -/
def specRemoveMatching (email : String) : List String → List String
  | [] => []
  | e :: es =>
      if e = email then specRemoveMatching email es
      else e :: specRemoveMatching email es

/-- C3: when `revokeAccess(email)` completes with a success response, the
new AccessList equals, for every prior AccessList (duplicates included),
the prior list with every entry equal to `email` by value equality removed
and all other entries kept in their original order; on the prior list
`["a@x.com", "b@x.com"]` revoking `"a@x.com"` leaves `["b@x.com"]`. -/
theorem claim3_revoke_success_removes_matches
    (s : OutputState) (email : String) :
    (removeEmail s email .ok).emails = specRemoveMatching email s.emails ∧
    (removeEmail { initialState with emails := ["a@x.com", "b@x.com"] }
        "a@x.com" .ok).emails
      = ["b@x.com"] := by
  refine ⟨?_, by decide⟩
  simp only [removeEmail]
  induction s.emails with
  | nil => rfl
  | cons e es ih =>
      by_cases he : e = email
      · simp [specRemoveMatching, List.filter_cons, he, ih]
      · simp [specRemoveMatching, List.filter_cons, he, ih]

/-- C4: for every non-empty source, when `run` resolves with response
fields `output` and `stderr`, ExecutionResult.outputLines is `output`
split on newline boundaries and isError is true iff `stderr` is non-empty;
in particular output `"1\n2\n3"` with empty stderr gives
`["1", "2", "3"]` and isError false. -/
theorem claim4_run_success_splits_output
    (s : OutputState) (src out stderr : String) (h : src ≠ "") :
    (runCode s (some src) (.resolved out stderr)).output
      = some (jsSplit newlineChar out) ∧
    ((runCode s (some src) (.resolved out stderr)).isError = true ↔ stderr ≠ "") ∧
    (runCode s (some src) (.resolved "1\n2\n3" "")).output
      = some ["1", "2", "3"] ∧
    (runCode s (some src) (.resolved "1\n2\n3" "")).isError = false := by
  have hg : truthyOptStr (some src) = true := by
    simp [truthyOptStr, bne_iff_ne, h]
  refine ⟨by simp [runCode, hg], by simp [runCode, hg, bne_iff_ne], ?_, ?_⟩
  · simp only [runCode, hg, if_true]
    exact congrArg some (by decide)
  · simp [runCode, hg]

/-- Witness for C4 at source `"print(1)"`, output `"1\n2\n3"`, empty
stderr. -/
theorem claim4_witness :
    ("print(1)" : String) ≠ "" ∧
    ((runCode initialState (some "print(1)") (.resolved "1\n2\n3" "oops")).output
        = some (jsSplit newlineChar "1\n2\n3") ∧
     ((runCode initialState (some "print(1)") (.resolved "1\n2\n3" "oops")).isError
        = true ↔ ("oops" : String) ≠ "") ∧
     (runCode initialState (some "print(1)") (.resolved "1\n2\n3" "")).output
        = some ["1", "2", "3"] ∧
     (runCode initialState (some "print(1)") (.resolved "1\n2\n3" "")).isError
        = false) :=
  ⟨by decide,
   claim4_run_success_splits_output initialState "print(1)" "1\n2\n3" "oops"
     (by decide)⟩

/-- C5: for every invocation of `run` with non-empty source, the loading
flag is false after the operation completes whatever the outcome; and when
the call throws, `output` and `isError` keep exactly their prior values. -/
theorem claim5_run_clears_loading_and_preserves_result_on_failure
    (s : OutputState) (src : String) (o : RunOutcome) (h : src ≠ "") :
    (runCode s (some src) o).isLoading = false ∧
    (runCode s (some src) .thrown).output = s.output ∧
    (runCode s (some src) .thrown).isError = s.isError := by
  have hg : truthyOptStr (some src) = true := by
    simp [truthyOptStr, bne_iff_ne, h]
  cases o <;> simp [runCode, runCodeBegin, hg]

/-- Witness for C5 at source `"print(1)"` and a thrown execution call. -/
theorem claim5_witness :
    ("print(1)" : String) ≠ "" ∧
    ((runCode initialState (some "print(1)") .thrown).isLoading = false ∧
     (runCode initialState (some "print(1)") .thrown).output = initialState.output ∧
     (runCode initialState (some "print(1)") .thrown).isError = initialState.isError) :=
  ⟨by decide,
   claim5_run_clears_loading_and_preserves_result_on_failure initialState
     "print(1)" .thrown (by decide)⟩

/-- C6: after `loadAccessList` resolves successfully, the local AccessList
equals exactly the server-returned sequence, and the empty sequence when
the `Access` field is absent from the response. -/
theorem claim6_load_success_replaces_accessList
    (s : OutputState) (serverList : List String) :
    (fetchEmails s (.ok (some serverList))).emails = serverList ∧
    (fetchEmails s (.ok none)).emails = [] :=
  ⟨rfl, rfl⟩

/-- C7 counterexample: starting a run changes the loading flag observed by
the Save Code button, and starting a save changes the loading flag
observed by the Run Code button — the two controllers do not have
distinct loading state. -/
theorem claim7_counterexample :
    saveButtonIsLoading (runCodeBegin initialState) ≠ saveButtonIsLoading initialState ∧
    runButtonIsLoading (saveCodeBegin initialState) ≠ runButtonIsLoading initialState := by
  decide

/-- C7 amended: the component keeps one shared loading flag; the Run and
Save buttons always observe the same value, and a run in flight sets the
flag observed by save (and vice versa). -/
theorem claim7_amended_shared_loading_flag (s : OutputState) :
    saveButtonIsLoading s = runButtonIsLoading s ∧
    saveButtonIsLoading (runCodeBegin s) = true ∧
    runButtonIsLoading (saveCodeBegin s) = true :=
  ⟨rfl, rfl, rfl⟩

/-- C8 counterexample: a whitespace-only pending email (`" "`) passes the
JS truthiness guard, so `grantAccess` does issue a network call and, on
success, does change local state — it is not a no-op. -/
theorem claim8_counterexample :
    (handleEmailSubmit blankEmailState .ok).networkCall = true ∧
    (handleEmailSubmit blankEmailState .ok).state ≠ blankEmailState := by
  decide

/-- C8 amended: `grantAccess` is a no-op exactly when the pending email is
the empty string (the JS-falsy case, which also covers an undefined
buffer): no network call is issued and no local state changes, for every
outcome. -/
theorem claim8_amended_empty_email_noop
    (s : OutputState) (o : GrantOutcome) (h : s.newEmail = "") :
    handleEmailSubmit s o = { state := s, networkCall := false } := by
  simp [handleEmailSubmit, h]

/-- Witness for C8 amended at the initial state, whose pending-email
buffer is the empty string. -/
theorem claim8_witness :
    initialState.newEmail = "" ∧
    handleEmailSubmit initialState .ok = { state := initialState, networkCall := false } :=
  ⟨rfl, claim8_amended_empty_email_noop initialState .ok rfl⟩

/-- C9: `save` with absent or empty content performs no network call and
changes no state; for non-empty content a failing save (non-success status
or thrown call) leaves the AccessList and the ExecutionResult exactly
unchanged and ends with the loading flag false. -/
theorem claim9_save_noop_and_failure_isolation
    (s : OutputState) (content : String) (smsg : Option String) (h : content ≠ "") :
    (∀ o, saveCode s none o = { state := s, networkCall := false }) ∧
    (∀ o, saveCode s (some "") o = { state := s, networkCall := false }) ∧
    accessList (saveCode s (some content) (.notOk smsg)).state = accessList s ∧
    executionResult (saveCode s (some content) (.notOk smsg)).state = executionResult s ∧
    (saveCode s (some content) (.notOk smsg)).state.isLoading = false ∧
    accessList (saveCode s (some content) .thrown).state = accessList s ∧
    executionResult (saveCode s (some content) .thrown).state = executionResult s ∧
    (saveCode s (some content) .thrown).state.isLoading = false := by
  have hg : truthyOptStr (some content) = true := by
    simp [truthyOptStr, bne_iff_ne, h]
  refine ⟨fun o => by simp [saveCode, truthyOptStr],
          fun o => by simp [saveCode, truthyOptStr], ?_, ?_, ?_, ?_, ?_, ?_⟩ <;>
    simp [saveCode, saveCodeBegin, hg, accessList, executionResult]

/-- Witness for C9 at content `"print(1)"` and a server rejection carrying
a message. -/
theorem claim9_witness :
    ("print(1)" : String) ≠ "" ∧
    ((∀ o, saveCode initialState none o = { state := initialState, networkCall := false }) ∧
     (∀ o, saveCode initialState (some "") o = { state := initialState, networkCall := false }) ∧
     accessList (saveCode initialState (some "print(1)") (.notOk (some "boom"))).state
        = accessList initialState ∧
     executionResult (saveCode initialState (some "print(1)") (.notOk (some "boom"))).state
        = executionResult initialState ∧
     (saveCode initialState (some "print(1)") (.notOk (some "boom"))).state.isLoading = false ∧
     accessList (saveCode initialState (some "print(1)") .thrown).state
        = accessList initialState ∧
     executionResult (saveCode initialState (some "print(1)") .thrown).state
        = executionResult initialState ∧
     (saveCode initialState (some "print(1)") .thrown).state.isLoading = false) :=
  ⟨by decide,
   claim9_save_noop_and_failure_isolation initialState "print(1)" (some "boom")
     (by decide)⟩

/-- C10: for every non-empty pending email, when `grantAccess` fails (a
non-success response or a thrown call) while the add-email modal is open,
the modal stays open and the pending-email buffer still holds the typed
email. -/
theorem claim10_failed_grant_keeps_modal_and_buffer
    (s : OutputState) (gmsg : Option String)
    (h : s.newEmail ≠ "") (hm : s.isModalOpen = true) :
    (handleEmailSubmit s (.notOk gmsg)).state.isModalOpen = true ∧
    (handleEmailSubmit s (.notOk gmsg)).state.newEmail = s.newEmail ∧
    (handleEmailSubmit s .thrown).state.isModalOpen = true ∧
    (handleEmailSubmit s .thrown).state.newEmail = s.newEmail := by
  simp [handleEmailSubmit, bne_iff_ne, h, hm]

/-- Witness for C10 at the concrete open-modal state with pending email
`"a@x.com"` and a server rejection. -/
theorem claim10_witness :
    grantDemoState.newEmail ≠ "" ∧ grantDemoState.isModalOpen = true ∧
    ((handleEmailSubmit grantDemoState (.notOk (some "boom"))).state.isModalOpen = true ∧
     (handleEmailSubmit grantDemoState (.notOk (some "boom"))).state.newEmail
        = grantDemoState.newEmail ∧
     (handleEmailSubmit grantDemoState .thrown).state.isModalOpen = true ∧
     (handleEmailSubmit grantDemoState .thrown).state.newEmail
        = grantDemoState.newEmail) :=
  ⟨by decide, by decide,
   claim10_failed_grant_keeps_modal_and_buffer grantDemoState (some "boom")
     (by decide) (by decide)⟩

end SheenEdge
